import Mathlib

/-!
Verification of `src/adsb_checker.py` (class `ADSBChecker`): a shallow
embedding of the fetch / display / save pipeline, followed by theorems
settling the specification claims.

Modelling conventions:
* JSON / Python `None` is `Option.none`; numeric JSON values are `ℚ`.
* A raw API state vector (`data['states'][i]`, a fixed-position array) is the
  structure `RawState`, whose fields are named by the array index the source
  reads (`state[0]`, `state[1]`, `state[2]`, `state[3]`, `state[5]`, `state[6]`,
  `state[7]`, `state[9]`, `state[10]`, `state[11]`); indices the source never
  reads are omitted.
* An uncaught Python exception is `Option.none` at the result type of the
  function it escapes from; `requests.RequestException` raised inside the
  `try` of `get_recent_flights` is the constructor `HttpResult.transportError`.
* `print` output is modelled as a list of emitted lines; an `f"\n..."` string
  contributes an empty line followed by its text.
* Library calendar rendering (`datetime.fromtimestamp(...).isoformat()` and
  the `str()` of a `datetime` in the log lines) is abstracted by a total
  function of the numeric timestamp; no claim depends on the exact text.
-/

/-- One raw entry of `data['states']`: the positions of the OpenSky state
vector that `get_recent_flights` reads.  `none` is JSON `null`. -/
structure RawState where
  /-- `state[0]`: icao24 transponder address. -/
  idx0 : Option String
  /-- `state[1]`: callsign. -/
  idx1 : Option String
  /-- `state[2]`: origin country. -/
  idx2 : Option String
  /-- `state[3]`: per-record time field (unix seconds). -/
  idx3 : Option ℚ
  /-- `state[5]`: stored by the source under the key `latitude`. -/
  idx5 : Option ℚ
  /-- `state[6]`: stored by the source under the key `longitude`. -/
  idx6 : Option ℚ
  /-- `state[7]`: barometric altitude. -/
  idx7 : Option ℚ
  /-- `state[9]`: velocity. -/
  idx9 : Option ℚ
  /-- `state[10]`: true track / heading. -/
  idx10 : Option ℚ
  /-- `state[11]`: vertical rate. -/
  idx11 : Option ℚ
deriving Repr, DecidableEq

/-- The flight dictionary built inside the loop of `get_recent_flights`
(keys `callsign, icao24, country, latitude, longitude, altitude, velocity,
heading, vertical_rate, timestamp`). -/
structure Flight where
  callsign : String
  icao24 : String
  country : Option String
  latitude : Option ℚ
  longitude : Option ℚ
  altitude : Option ℚ
  velocity : Option ℚ
  heading : Option ℚ
  vertical_rate : Option ℚ
  timestamp : String
deriving Repr, DecidableEq

/-- Abstraction of `datetime.fromtimestamp(t).isoformat()` for a non-null
numeric `t`: some total rendering of the timestamp.  (The real function also
fails on out-of-range values; no claim depends on that or on the exact text.) -/
def isoLocal (t : ℚ) : String := toString t

/-- Abstraction of `str(datetime.fromtimestamp(t))` used in the log lines. -/
def fmtLocalTime (t : ℤ) : String := toString t

/-- Python `str.strip()`: remove leading and trailing whitespace. -/
def pyStrip (s : String) : String :=
  String.mk ((s.data.dropWhile Char.isWhitespace).reverse.dropWhile
    Char.isWhitespace).reverse

/-- `state[1].strip() if state[1] else 'Unknown'`: Python truthiness of a
string is falsity exactly on the empty string, and `None` takes the
`else` branch too. -/
def pyCallsign : Option String → String
  | none => "Unknown"
  | some s => if s = "" then "Unknown" else pyStrip s

/-- The dictionary construction in the loop body of `get_recent_flights`,
given that `state[0] is not None` already holds (with `ic` its value).
Returns `none` when `state[3]` is null: `datetime.fromtimestamp(None)`
raises `TypeError`, which the surrounding `except requests.RequestException`
does not catch. -/
def buildFlight (ic : String) (s : RawState) : Option Flight :=
  match s.idx3 with
  | none => none
  | some t => some
      { callsign := pyCallsign s.idx1
        icao24 := ic
        country := s.idx2
        latitude := s.idx5
        longitude := s.idx6
        altitude := s.idx7
        velocity := s.idx9
        heading := s.idx10
        vertical_rate := s.idx11
        timestamp := isoLocal t }

/-- The `for state in states` loop of `get_recent_flights`: keep entries with
`state[0] is not None`, build each flight dictionary in order; `none` when a
retained entry has a null time field (the `TypeError` escapes, discarding
everything). -/
def processStates : List RawState → Option (List Flight)
  | [] => some []
  | s :: rest =>
    match s.idx0 with
    | none => processStates rest
    | some ic =>
      match buildFlight ic s with
      | none => none
      | some f => (processStates rest).map (fun tl => f :: tl)

/-- The parsed JSON object of a successful response.  The source reads only
the key `'states'` (via `data.get('states', [])`), whose value there is a
list of state vectors, so values are typed as such. -/
abbrev ApiBody := List (String × List RawState)

/-- `data.get('states', [])`: first binding of `'states'`, defaulting to the
empty list when the object lacks that key. -/
def getStates : ApiBody → List RawState
  | [] => []
  | (k, v) :: rest => if k = "states" then v else getStates rest

/-- Outcome of `self.session.get(url, timeout=10)` followed by
`response.raise_for_status()`: either a `requests.RequestException`
(timeout, connection error, or non-2xx status turned into `HTTPError`
by `raise_for_status`), or a parsed JSON body. -/
inductive HttpResult where
  | transportError (msg : String)
  | ok (body : ApiBody)

/-- The raw states carried by a response (empty for a transport failure,
which never reaches the parsing code). -/
def respStates : HttpResult → List RawState
  | .transportError _ => []
  | .ok body => getStates body

/-- `ADSBChecker.get_recent_flights`, as a function of the checker's
`lookback_minutes`, the current time `now` (unix seconds, from
`datetime.utcnow()`), and the HTTP outcome.  First component: the returned
flight list, `none` for an uncaught exception (null time field, see
`buildFlight`).  Second component: the lines printed. -/
def get_recent_flights (lookback_minutes now : ℤ) (resp : HttpResult) :
    Option (List Flight) × List String :=
  let start_time := now - 60 * lookback_minutes
  let log := ["Fetching ADS-B data from " ++ toString lookback_minutes ++
                " minutes ago...",
              "Time range: " ++ fmtLocalTime start_time ++ " to " ++
                fmtLocalTime now]
  match resp with
  | .transportError msg => (some [], log ++ ["Error fetching ADS-B data: " ++ msg])
  | .ok body => (processStates (getStates body), log)

/-- Round a rational to the nearest integer, ties to even: the rounding of
Python's `format(x, '.0f')` fixed-point conversion. -/
def roundHalfEven (q : ℚ) : ℤ :=
  let f := ⌊q⌋
  let r := q - (f : ℚ)
  if r < 1/2 then f
  else if 1/2 < r then f + 1
  else if f % 2 = 0 then f else f + 1

/-- Python `f"{q:.0f}"`: nearest integer, ties to even, and a negative value
that rounds to zero prints as `-0`. -/
def fmt0 (q : ℚ) : String :=
  let n := roundHalfEven q
  if q < 0 ∧ n = 0 then "-0" else toString n

/-- Python `f"{q:.1f}"`: one fixed decimal, ties to even, sign taken from the
value (so `-0.04` prints `-0.0`). -/
def fmt1 (q : ℚ) : String :=
  let n := roundHalfEven (10 * q)
  let sgn := if n < 0 ∨ (n = 0 ∧ q < 0) then "-" else ""
  sgn ++ toString (n.natAbs / 10) ++ "." ++ toString (n.natAbs % 10)

/-- `f"{flight['altitude']:.0f}m" if flight['altitude'] else 'N/A'`: Python
truthiness, so both `None` and the number `0` take the `'N/A'` branch. -/
def fmtAlt : Option ℚ → String
  | none => "N/A"
  | some q => if q = 0 then "N/A" else fmt0 q ++ "m"

/-- `f"{flight['velocity']:.1f}m/s" if flight['velocity'] else 'N/A'`:
Python truthiness, as for the altitude column. -/
def fmtVel : Option ℚ → String
  | none => "N/A"
  | some q => if q = 0 then "N/A" else fmt1 q ++ "m/s"

/-- `f"{flight['heading']:.0f}°" if flight['heading'] is not None else 'N/A'`:
an explicit `is not None` test, so the number `0` renders `0°`. -/
def fmtHeading : Option ℚ → String
  | none => "N/A"
  | some q => fmt0 q ++ "°"

/-- `flight['country'] or 'Unknown'`: `None` and the empty string are falsy. -/
def displayCountry : Option String → String
  | none => "Unknown"
  | some s => if s = "" then "Unknown" else s

/-- Python `f"{s:<w}"`: left-justify `s` in a field of `w` characters. -/
def padTo (w : Nat) (s : String) : String :=
  s ++ String.mk (List.replicate (w - s.length) ' ')

/-- The header row of the table printed by `display_flights`. -/
def headerRow : String :=
  padTo 10 "Callsign" ++ " " ++ padTo 20 "Country" ++ " " ++
    padTo 10 "Altitude" ++ " " ++ padTo 10 "Velocity" ++ " " ++ padTo 10 "Heading"

/-- The `"-" * 70` separator row. -/
def separatorRow : String := String.mk (List.replicate 70 '-')

/-- One detail row of the table: each column formatted then left-justified. -/
def detailRow (f : Flight) : String :=
  padTo 10 f.callsign ++ " " ++ padTo 20 (displayCountry f.country) ++ " " ++
    padTo 10 (fmtAlt f.altitude) ++ " " ++ padTo 10 (fmtVel f.velocity) ++ " " ++
    padTo 10 (fmtHeading f.heading)

/-- `ADSBChecker.display_flights` as the list of lines it prints: the
`"no data"` notice for an empty input; otherwise the header block, one detail
row per flight for the first 50 (`flights[:50]`), a `... and N more aircraft`
summary only when more than 50 exist, and the trailing total count. -/
def display_flights (flights : List Flight) : List String :=
  if flights.isEmpty then ["No aircraft data available"]
  else
    ["", headerRow, separatorRow]
      ++ (flights.take 50).map detailRow
      ++ (if flights.length > 50 then
            ["", "... and " ++ toString (flights.length - 50) ++ " more aircraft"]
          else [])
      ++ ["", "Total aircraft tracked: " ++ toString flights.length]

/-- JSON values, as produced by `json.dump` / parsed back by `json.load`. -/
inductive JVal where
  | null
  | str (s : String)
  | num (q : ℚ)
  | arr (elems : List JVal)
  | obj (fields : List (String × JVal))

/-- A Python `None`-or-string serialized to JSON. -/
def jOptStr : Option String → JVal
  | none => .null
  | some s => .str s

/-- A Python `None`-or-number serialized to JSON. -/
def jOptNum : Option ℚ → JVal
  | none => .null
  | some q => .num q

/-- The key/value pairs of one flight dictionary, in construction order. -/
def flightFields (f : Flight) : List (String × JVal) :=
  [("callsign", .str f.callsign),
   ("icao24", .str f.icao24),
   ("country", jOptStr f.country),
   ("latitude", jOptNum f.latitude),
   ("longitude", jOptNum f.longitude),
   ("altitude", jOptNum f.altitude),
   ("velocity", jOptNum f.velocity),
   ("heading", jOptNum f.heading),
   ("vertical_rate", jOptNum f.vertical_rate),
   ("timestamp", .str f.timestamp)]

/-- `ADSBChecker.save_data`: the JSON value `json.dump(flights, f, indent=2)`
writes to the file.  Reading the file back with `json.load` yields this same
value (the indent affects only whitespace), so the round-tripped document is
modelled by the value itself. -/
def save_data (flights : List Flight) : JVal :=
  .arr (flights.map (fun f => .obj (flightFields f)))

/-- Sample entry with a non-null identifier but a null time field (`state[3]`). -/
def nullTimeState : RawState :=
  { idx0 := some "abc123", idx1 := some "UAL1  ", idx2 := some "United States",
    idx3 := none, idx5 := some 40, idx6 := some 50, idx7 := none,
    idx9 := none, idx10 := none, idx11 := none }

/-- Sample entry with identifier and time present and several null fields. -/
def sampleGood : RawState :=
  { idx0 := some "4b1805", idx1 := some "SWR123 ", idx2 := some "Switzerland",
    idx3 := some 1700000000, idx5 := some 47, idx6 := some 8,
    idx7 := some (2345/10), idx9 := some 0, idx10 := some 0, idx11 := none }

/-- Sample entry with a null identifier field (`state[0]`). -/
def sampleNullId : RawState :=
  { idx0 := none, idx1 := some "GHOST", idx2 := none, idx3 := some 5,
    idx5 := none, idx6 := none, idx7 := none, idx9 := none,
    idx10 := none, idx11 := none }

/-- The flight record `sampleGood` is turned into. -/
def sampleFlight : Flight :=
  { callsign := pyCallsign (some "SWR123 "), icao24 := "4b1805",
    country := some "Switzerland", latitude := some 47, longitude := some 8,
    altitude := some (2345/10), velocity := some 0, heading := some 0,
    vertical_rate := none, timestamp := isoLocal 1700000000 }

/-- A minimal flight record for Presenter / Persister witnesses. -/
def demoFlight : Flight :=
  { callsign := "Unknown", icao24 := "abc123", country := none, latitude := none,
    longitude := none, altitude := none, velocity := none, heading := none,
    vertical_rate := none, timestamp := isoLocal 0 }

/-- Fifty-one copies of `demoFlight`. -/
def demoFlights : List Flight := List.replicate 51 demoFlight

/-- A string whose final character differs from `A` is not `"N/A"`. -/
theorem append_ne_NA (s t : String) (c : Char) (hc : c ≠ 'A')
    (ht : t.data.getLast? = some c) : s ++ t ≠ "N/A" := by
  intro h
  have h1 : (s ++ t).data = "N/A".data := congrArg String.data h
  rw [String.data_append] at h1
  have h2 : (s.data ++ t.data).getLast? = some 'A' := by rw [h1]; rfl
  have h3 : (s.data ++ t.data).getLast? = t.data.getLast? := by
    apply List.getLast?_append_of_ne_nil
    intro hnil
    rw [hnil] at ht
    simp at ht
  rw [h3, ht] at h2
  exact hc (Option.some.inj h2)

/-- The altitude column is `"N/A"` exactly for an absent or zero altitude. -/
theorem fmtAlt_NA_iff (a : Option ℚ) : fmtAlt a = "N/A" ↔ a = none ∨ a = some 0 := by
  cases a with
  | none => simp [fmtAlt]
  | some q =>
    by_cases hq : q = 0
    · subst hq; simp [fmtAlt]
    · simp only [fmtAlt, if_neg hq]
      constructor
      · intro h
        exact absurd h (append_ne_NA (fmt0 q) "m" 'm' (by decide) (by decide))
      · rintro (h | h)
        · exact absurd h (Option.some_ne_none q)
        · exact absurd (Option.some.inj h) hq

/-- The velocity column is `"N/A"` exactly for an absent or zero velocity. -/
theorem fmtVel_NA_iff (v : Option ℚ) : fmtVel v = "N/A" ↔ v = none ∨ v = some 0 := by
  cases v with
  | none => simp [fmtVel]
  | some q =>
    by_cases hq : q = 0
    · subst hq; simp [fmtVel]
    · simp only [fmtVel, if_neg hq]
      constructor
      · intro h
        exact absurd h (append_ne_NA (fmt1 q) "m/s" 's' (by decide) (by decide))
      · rintro (h | h)
        · exact absurd h (Option.some_ne_none q)
        · exact absurd (Option.some.inj h) hq

/-- Claim C1 (amended): the altitude column renders `{altitude:.0f}m` and the
velocity column `{velocity:.1f}m/s` when the value is present and nonzero,
and `"N/A"` exactly when the value is absent or equal to 0 — the zero value
does NOT render with a unit suffix, because the source tests Python
truthiness rather than `is not None` for these two columns. -/
theorem altitude_velocity_columns :
    (∀ q : ℚ, q ≠ 0 → fmtAlt (some q) = fmt0 q ++ "m" ∧ fmtVel (some q) = fmt1 q ++ "m/s")
    ∧ (∀ a : Option ℚ, fmtAlt a = "N/A" ↔ a = none ∨ a = some 0)
    ∧ (∀ v : Option ℚ, fmtVel v = "N/A" ↔ v = none ∨ v = some 0) := by
  refine ⟨fun q hq => ⟨?_, ?_⟩, fmtAlt_NA_iff, fmtVel_NA_iff⟩
  · simp [fmtAlt, hq]
  · simp [fmtVel, hq]

/-- Claim C1 witness: at altitude and velocity 100 the columns carry units. -/
theorem altitude_velocity_columns_witness :
    (100 : ℚ) ≠ 0 ∧ fmtAlt (some 100) = fmt0 100 ++ "m"
      ∧ fmtVel (some 100) = fmt1 100 ++ "m/s" :=
  ⟨by norm_num, (altitude_velocity_columns.1 100 (by norm_num)).1,
    (altitude_velocity_columns.1 100 (by norm_num)).2⟩

/-- Claim C1 counterexample: a present altitude (velocity) of numeric value 0
renders `"N/A"`, not `"0m"` (`"0.0m/s"`), contradicting the claim that
`"N/A"` appears only for an absent value. -/
theorem altitude_zero_renders_NA :
    fmtAlt (some 0) = "N/A" ∧ fmtVel (some 0) = "N/A" ∧ fmtAlt (some 0) ≠ "0m"
      ∧ fmtVel (some 0) ≠ "0.0m/s" := by
  refine ⟨by decide, by decide, by decide, by decide⟩

/-- Claim C2 (amended): an entry whose identifier (`state[0]`) and time field
(`state[3]`) are both non-null is turned into a record without failing, and
every null among the remaining fields is preserved as `none`, not defaulted. -/
theorem record_construction_preserves_nulls (s : RawState) (ic : String) (t : ℚ)
    (h0 : s.idx0 = some ic) (h3 : s.idx3 = some t) :
    ∃ f : Flight, processStates [s] = some [f] ∧ f.icao24 = ic ∧
      f.callsign = pyCallsign s.idx1 ∧ f.country = s.idx2 ∧ f.latitude = s.idx5 ∧
      f.longitude = s.idx6 ∧ f.altitude = s.idx7 ∧ f.velocity = s.idx9 ∧
      f.heading = s.idx10 ∧ f.vertical_rate = s.idx11 := by
  refine ⟨{ callsign := pyCallsign s.idx1, icao24 := ic, country := s.idx2,
            latitude := s.idx5, longitude := s.idx6, altitude := s.idx7,
            velocity := s.idx9, heading := s.idx10, vertical_rate := s.idx11,
            timestamp := isoLocal t },
          ?_, rfl, rfl, rfl, rfl, rfl, rfl, rfl, rfl, rfl⟩
  simp [processStates, buildFlight, h0, h3]

/-- Claim C2 witness: `sampleGood` is processed into a record preserving its
null vertical rate. -/
theorem record_construction_preserves_nulls_witness :
    sampleGood.idx0 = some "4b1805" ∧ sampleGood.idx3 = some 1700000000 ∧
      (∃ f : Flight, processStates [sampleGood] = some [f] ∧ f.icao24 = "4b1805" ∧
        f.callsign = pyCallsign sampleGood.idx1 ∧ f.country = sampleGood.idx2 ∧
        f.latitude = sampleGood.idx5 ∧ f.longitude = sampleGood.idx6 ∧
        f.altitude = sampleGood.idx7 ∧ f.velocity = sampleGood.idx9 ∧
        f.heading = sampleGood.idx10 ∧ f.vertical_rate = sampleGood.idx11) :=
  ⟨rfl, rfl, record_construction_preserves_nulls sampleGood "4b1805" 1700000000 rfl rfl⟩

/-- Claim C2 counterexample: an entry whose identifier is non-null but whose
time field (`state[3]`) is null does NOT yield a record —
`datetime.fromtimestamp(None)` raises an uncaught `TypeError`, so processing
the response fails (`none`) instead of producing the record. -/
theorem null_time_entry_fails : processStates [nullTimeState] = none := rfl

/-- Claim C3 (amended): the callsign is the sentinel `"Unknown"` exactly when
the raw field is absent or the empty string; any non-empty field — including
a whitespace-only one — is stripped, so a whitespace-only callsign becomes
the empty string, not `"Unknown"`. -/
theorem callsign_normalization :
    pyCallsign none = "Unknown" ∧ pyCallsign (some "") = "Unknown" ∧
      ∀ s : String, s ≠ "" → pyCallsign (some s) = pyStrip s := by
  refine ⟨rfl, rfl, fun s hs => ?_⟩
  simp [pyCallsign, hs]

/-- Claim C3 witness: a padded callsign is stripped of its padding. -/
theorem callsign_normalization_witness :
    (" UAL123 " : String) ≠ "" ∧ pyCallsign (some " UAL123 ") = pyStrip " UAL123 "
      ∧ pyStrip " UAL123 " = "UAL123" :=
  ⟨by decide, callsign_normalization.2.2 " UAL123 " (by decide), by decide⟩

/-- Claim C3 counterexample: a whitespace-only callsign field is truthy in
Python, so it is stripped to the empty string instead of being replaced by
the sentinel `"Unknown"`. -/
theorem whitespace_callsign_not_unknown :
    pyCallsign (some " ") = "" ∧ pyCallsign (some " ") ≠ "Unknown" := by
  exact ⟨by decide, by decide⟩

/-- Rounding the rational 0 gives the integer 0. -/
theorem roundHalfEven_zero : roundHalfEven 0 = 0 := by
  simp [roundHalfEven]

/-- The `.0f` rendering of 0 is `"0"`. -/
theorem fmt0_zero : fmt0 0 = "0" := by
  simp [fmt0, roundHalfEven_zero]
  rfl

/-- Claim C6: a present heading of numeric value 0 renders `"0°"`, and the
heading column is `"N/A"` exactly when the heading is absent (the source
tests `is not None` for this column). -/
theorem heading_zero_renders :
    fmtHeading (some 0) = "0°" ∧ ∀ h : Option ℚ, (fmtHeading h = "N/A" ↔ h = none) := by
  constructor
  · show fmt0 0 ++ "°" = "0°"
    rw [fmt0_zero]
    rfl
  · intro h
    cases h with
    | none => simp [fmtHeading]
    | some q =>
      simp only [fmtHeading]
      constructor
      · intro he
        exact absurd he (append_ne_NA (fmt0 q) "°" '°' (by decide) (by decide))
      · intro he
        exact absurd he (Option.some_ne_none q)

/-- A flight built by `buildFlight` carries the identifier it was given. -/
theorem buildFlight_icao24 {ic : String} {s : RawState} {f : Flight}
    (h : buildFlight ic s = some f) : f.icao24 = ic := by
  unfold buildFlight at h
  cases h3 : s.idx3 with
  | none => rw [h3] at h; exact absurd h (by simp)
  | some t =>
    rw [h3] at h
    simp only [Option.some.injEq] at h
    rw [← h]

/-- Soundness of the filtering loop: when it completes, the output is no
longer than the input and every record's identifier comes from an input
entry whose identifier field was non-null. -/
theorem processStates_sound (states : List RawState) (out : List Flight)
    (h : processStates states = some out) :
    out.length ≤ states.length ∧ ∀ f ∈ out, ∃ s ∈ states, s.idx0 = some f.icao24 := by
  induction states generalizing out with
  | nil =>
    simp only [processStates, Option.some.injEq] at h
    subst h
    simp
  | cons s rest ih =>
    cases h0 : s.idx0 with
    | none =>
      simp only [processStates, h0] at h
      obtain ⟨hlen, hmem⟩ := ih out h
      refine ⟨Nat.le_succ_of_le hlen, fun f hf => ?_⟩
      obtain ⟨s2, hs2, hid⟩ := hmem f hf
      exact ⟨s2, List.mem_cons_of_mem _ hs2, hid⟩
    | some ic =>
      simp only [processStates, h0] at h
      cases hb : buildFlight ic s with
      | none => rw [hb] at h; exact absurd h (by simp)
      | some f0 =>
        rw [hb, Option.map_eq_some'] at h
        obtain ⟨tl, htl, hout⟩ := h
        subst hout
        obtain ⟨hlen, hmem⟩ := ih tl htl
        refine ⟨Nat.succ_le_succ hlen, fun f hf => ?_⟩
        rcases List.mem_cons.mp hf with hfe | hfm
        · subst hfe
          exact ⟨s, List.mem_cons_self _ _, by rw [h0, buildFlight_icao24 hb]⟩
        · obtain ⟨s2, hs2, hid⟩ := hmem f hfm
          exact ⟨s2, List.mem_cons_of_mem _ hs2, hid⟩

/-- Claim C4: when `get_recent_flights` returns a flight list, it is no
longer than the raw state list of the response, and every record's
identifier stems from an entry whose identifier field was non-null — null
identifier entries are excluded. -/
theorem fetcher_excludes_null_ids (lb now : ℤ) (resp : HttpResult)
    (out : List Flight) (h : (get_recent_flights lb now resp).1 = some out) :
    out.length ≤ (respStates resp).length ∧
      ∀ f ∈ out, ∃ s ∈ respStates resp, s.idx0 = some f.icao24 := by
  cases resp with
  | transportError msg =>
    simp only [get_recent_flights, Option.some.injEq] at h
    subst h
    simp [respStates]
  | ok body =>
    simp only [get_recent_flights] at h
    exact processStates_sound _ _ h

/-- Claim C4 witness: a response holding one null-identifier entry and one
good entry yields the one record built from the good entry. -/
theorem fetcher_excludes_null_ids_witness :
    (get_recent_flights 15 0 (.ok [("states", [sampleNullId, sampleGood])])).1
        = some [sampleFlight] ∧
      ([sampleFlight].length
          ≤ (respStates (.ok [("states", [sampleNullId, sampleGood])])).length ∧
        ∀ f ∈ [sampleFlight],
          ∃ s ∈ respStates (.ok [("states", [sampleNullId, sampleGood])]),
            s.idx0 = some f.icao24) :=
  ⟨rfl, fetcher_excludes_null_ids 15 0 _ [sampleFlight] rfl⟩

/-- Claim C5: on a transport failure (`requests.RequestException`: timeout,
connection error, or non-2xx status) the Fetcher returns the empty list —
no exception escapes — and the error is logged. -/
theorem transport_failure_degrades (lb now : ℤ) (msg : String) :
    (get_recent_flights lb now (.transportError msg)).1 = some [] ∧
      ("Error fetching ADS-B data: " ++ msg)
        ∈ (get_recent_flights lb now (.transportError msg)).2 := by
  refine ⟨rfl, ?_⟩
  simp [get_recent_flights]

/-- Claim C7: for more than 50 records the Presenter prints the header block,
then exactly 50 detail rows — those of the first 50 records in order — then
one summary line with the remaining count, then the trailing total count. -/
theorem display_flights_overflow (flights : List Flight)
    (h : 50 < flights.length) :
    display_flights flights =
        ["", headerRow, separatorRow] ++ (flights.take 50).map detailRow ++
          ["", "... and " ++ toString (flights.length - 50) ++ " more aircraft",
           "", "Total aircraft tracked: " ++ toString flights.length] ∧
      ((flights.take 50).map detailRow).length = 50 := by
  have hne : flights.isEmpty = false := by
    cases flights with
    | nil => simp at h
    | cons a l => rfl
  constructor
  · simp [display_flights, hne, h, List.append_assoc]
  · simp only [List.length_map, List.length_take]
    omega

/-- Claim C7 witness: 51 identical records give 50 detail rows, the summary
line `... and 1 more aircraft`, and the total line for 51. -/
theorem display_flights_overflow_witness :
    50 < demoFlights.length ∧
      (display_flights demoFlights =
          ["", headerRow, separatorRow] ++ (demoFlights.take 50).map detailRow ++
            ["", "... and " ++ toString (demoFlights.length - 50) ++ " more aircraft",
             "", "Total aircraft tracked: " ++ toString demoFlights.length] ∧
        ((demoFlights.take 50).map detailRow).length = 50) :=
  ⟨by decide, display_flights_overflow demoFlights (by decide)⟩

/-- Claim C8: the JSON document written for a non-empty record list is an
array of the same length whose objects each carry exactly the 10 documented
keys, in order. -/
theorem save_data_roundtrip (flights : List Flight) (h : flights ≠ []) :
    ∃ objs : List JVal, save_data flights = .arr objs ∧
      objs.length = flights.length ∧
      ∀ o ∈ objs, ∃ fs : List (String × JVal), o = .obj fs ∧
        fs.map Prod.fst = ["callsign", "icao24", "country", "latitude",
                           "longitude", "altitude", "velocity", "heading",
                           "vertical_rate", "timestamp"] := by
  refine ⟨flights.map (fun f => .obj (flightFields f)), rfl, by simp, ?_⟩
  intro o ho
  rw [List.mem_map] at ho
  obtain ⟨f, hf, rfl⟩ := ho
  exact ⟨flightFields f, rfl, rfl⟩

/-- Claim C8 witness: the singleton list of `demoFlight` serializes to a
one-object array with the 10 keys. -/
theorem save_data_roundtrip_witness :
    ([demoFlight] : List Flight) ≠ [] ∧
      (∃ objs : List JVal, save_data [demoFlight] = .arr objs ∧
        objs.length = ([demoFlight] : List Flight).length ∧
        ∀ o ∈ objs, ∃ fs : List (String × JVal), o = .obj fs ∧
          fs.map Prod.fst = ["callsign", "icao24", "country", "latitude",
                             "longitude", "altitude", "velocity", "heading",
                             "vertical_rate", "timestamp"]) :=
  ⟨by simp, save_data_roundtrip [demoFlight] (by simp)⟩

/-- Claim C9: the lookback window is purely informational — two runs that
differ only in `lookback_minutes` but see the same HTTP outcome return the
same flight list. -/
theorem lookback_no_influence (lb1 lb2 now : ℤ) (resp : HttpResult) :
    (get_recent_flights lb1 now resp).1 = (get_recent_flights lb2 now resp).1 := by
  cases resp <;> rfl

/-- An object without a `'states'` key defaults to the empty state list. -/
theorem getStates_eq_nil (b : ApiBody) (h : ∀ p ∈ b, p.1 ≠ "states") :
    getStates b = [] := by
  induction b with
  | nil => rfl
  | cons p rest ih =>
    obtain ⟨k, v⟩ := p
    have hk : k ≠ "states" := h (k, v) (List.mem_cons_self _ _)
    simp only [getStates, if_neg hk]
    exact ih (fun q hq => h q (List.mem_cons_of_mem _ hq))

/-- Claim C10: a 2xx response whose JSON object has no `'states'` field makes
the Fetcher return the empty list without raising, the same degrade-to-empty
outcome as a transport failure. -/
theorem missing_states_degrades (lb now : ℤ) (b : ApiBody)
    (h : ∀ p ∈ b, p.1 ≠ "states") :
    (get_recent_flights lb now (.ok b)).1 = some [] := by
  simp only [get_recent_flights]
  rw [getStates_eq_nil b h]
  rfl

/-- Claim C10 witness: a body holding only a `'time'` key yields the empty
flight list. -/
theorem missing_states_degrades_witness :
    (∀ p ∈ ([("time", [])] : ApiBody), p.1 ≠ "states") ∧
      (get_recent_flights 15 0 (.ok [("time", [])])).1 = some [] :=
  ⟨by decide, missing_states_degrades 15 0 [("time", [])] (by decide)⟩
